import Mathlib

/-!
Shallow embedding of the vaccination-planning core pipeline:
eligibility checking and recommendation generation (VaccineDatabase),
risk scoring (RiskAssessment), schedule optimization (ScheduleOptimizer)
and reminder planning (ReminderSystem).

Dates are modelled at day granularity as integers (days since an epoch);
"now" is passed explicitly wherever the source reads the wall clock.
JavaScript string operations are modelled directly: `s.includes(t)` as
infix containment on character lists, `s.toLowerCase()` as a character-wise lowering,
`parseInt` as an optional integer (`none` plays the role of `NaN`, and any
numeric comparison against `NaN` is false).
-/

/-- JavaScript `s.includes(sub)`: `sub` occurs contiguously inside `s`. -/
def jsIncludes (s sub : String) : Bool :=
  decide (sub.toList <:+: s.toList)

/-- JavaScript `s.toLowerCase()`, mapped over the character list. -/
def jsToLower (s : String) : String := ⟨s.data.map Char.toLower⟩

/-- JavaScript `s.split(sep)` for a one-character separator, over character
lists. -/
def splitChar (sep : Char) : List Char → List (List Char)
  | [] => [[]]
  | a :: rest =>
    let r := splitChar sep rest
    if a == sep then [] :: r
    else (a :: r.headD []) :: r.tail

/-- JavaScript `s.split(sep)` for a one-character separator. -/
def jsSplit (s : String) (sep : Char) : List String :=
  (splitChar sep s.data).map (fun cs => ⟨cs⟩)

/-- Numeric value of a run of decimal digits. -/
def digitsVal (ds : List Char) : Nat :=
  ds.foldl (fun a c => a * 10 + (c.toNat - Char.toNat '0')) 0

/-- JavaScript `parseInt` (radix 10): skip leading whitespace, optional sign,
then a maximal run of digits; `none` models `NaN` (no digits found). -/
def jsParseInt (s : String) : Option Int :=
  let cs := s.toList.dropWhile (fun c => c.isWhitespace)
  let signAndRest : Int × List Char :=
    match cs with
    | '-' :: rest => (-1, rest)
    | '+' :: rest => (1, rest)
    | _ => (1, cs)
  let ds := signAndRest.2.takeWhile (fun c => c.isDigit)
  if ds.isEmpty then none else some (signAndRest.1 * (digitsVal ds : Int))

/-- Catalog priority class of a vaccine. -/
inductive VaccineClass
  | routine
  | highRisk
  | travel
  | outbreak
deriving DecidableEq, Repr

instance : BEq VaccineClass := ⟨fun a b => decide (a = b)⟩

/-- Priority of a generated recommendation. -/
inductive RecPriority
  | high
  | medium
  | low
deriving DecidableEq, Repr

instance : BEq RecPriority := ⟨fun a b => decide (a = b)⟩

/-- Risk level of a risk factor. -/
inductive RiskLevel
  | low
  | medium
  | high
deriving DecidableEq, Repr

/-- A travel plan of the patient (dates in days). -/
structure TravelPlan where
  destination : String
  departureDate : Int
  returnDate : Int
deriving DecidableEq, Repr

/-- A previous vaccination record of the patient. -/
structure PreviousVaccination where
  vaccine : String
  date : Int
  nextDue : Option Int
deriving DecidableEq, Repr

/-- The patient record (interface `Patient` of `pages/Index`). -/
structure Patient where
  id : String
  name : String
  age : Int
  dateOfBirth : String
  healthConditions : List String
  allergies : List String
  travelPlans : List TravelPlan
  previousVaccinations : List PreviousVaccination
  riskFactors : List String
deriving DecidableEq, Repr

/-- A catalog entry (interface `VaccineInfo` of `VaccineDatabase`). -/
structure VaccineInfo where
  name : String
  description : String
  ageGroups : List String
  contraindications : List String
  interval : Int
  boosterRequired : Bool
  travelRequired : List String
  priority : VaccineClass
  diseases : List String
deriving DecidableEq, Repr

/-- A generated recommendation (interface `VaccineRecommendation`). -/
structure VaccineRecommendation where
  vaccine : String
  priority : RecPriority
  dueDate : Int
  reason : String
  riskScore : Int
  interactions : List String
deriving DecidableEq, Repr

/-- A risk factor (interface `RiskFactor` of `RiskAssessment`). -/
structure RiskFactor where
  category : String
  factor : String
  riskLevel : RiskLevel
  impact : Int
  description : String
deriving DecidableEq, Repr

/-- The vaccine catalog `vaccineDatabase` of `VaccineDatabase.tsx`. -/
def vaccineDatabase : List VaccineInfo :=
  [ { name := "COVID-19 (mRNA)"
    , description := "Protection against COVID-19 coronavirus"
    , ageGroups := ["6+ months"]
    , contraindications := ["Previous severe reaction", "Allergic to mRNA components"]
    , interval := 28
    , boosterRequired := true
    , travelRequired := []
    , priority := .routine
    , diseases := ["COVID-19"] }
  , { name := "Influenza (Flu)"
    , description := "Annual protection against seasonal influenza"
    , ageGroups := ["6+ months"]
    , contraindications := ["Eggs", "Previous severe reaction", "Guillain-Barré syndrome"]
    , interval := 365
    , boosterRequired := true
    , travelRequired := []
    , priority := .routine
    , diseases := ["Influenza A", "Influenza B"] }
  , { name := "Tetanus-Diphtheria (Td)"
    , description := "Protection against tetanus and diphtheria"
    , ageGroups := ["11+ years"]
    , contraindications := ["Previous severe reaction"]
    , interval := 3650
    , boosterRequired := true
    , travelRequired := []
    , priority := .routine
    , diseases := ["Tetanus", "Diphtheria"] }
  , { name := "Hepatitis A"
    , description := "Protection against hepatitis A virus"
    , ageGroups := ["12+ months"]
    , contraindications := ["Previous severe reaction"]
    , interval := 182
    , boosterRequired := false
    , travelRequired := ["Asia", "Africa", "Central America", "South America"]
    , priority := .travel
    , diseases := ["Hepatitis A"] }
  , { name := "Hepatitis B"
    , description := "Protection against hepatitis B virus"
    , ageGroups := ["Birth+"]
    , contraindications := ["Previous severe reaction", "Yeast"]
    , interval := 28
    , boosterRequired := false
    , travelRequired := ["Asia", "Africa", "Eastern Europe"]
    , priority := .routine
    , diseases := ["Hepatitis B"] }
  , { name := "Japanese Encephalitis"
    , description := "Protection against Japanese encephalitis virus"
    , ageGroups := ["2+ months"]
    , contraindications := ["Previous severe reaction"]
    , interval := 28
    , boosterRequired := true
    , travelRequired := ["Japan", "Korea", "China", "Southeast Asia", "India"]
    , priority := .travel
    , diseases := ["Japanese Encephalitis"] }
  , { name := "Yellow Fever"
    , description := "Protection against yellow fever virus"
    , ageGroups := ["9+ months"]
    , contraindications := ["Immunocompromised", "Eggs", "60+ years (relative)"]
    , interval := 0
    , boosterRequired := false
    , travelRequired := ["Sub-Saharan Africa", "Tropical South America"]
    , priority := .travel
    , diseases := ["Yellow Fever"] }
  , { name := "Typhoid"
    , description := "Protection against typhoid fever"
    , ageGroups := ["2+ years"]
    , contraindications := ["Immunocompromised", "Previous severe reaction"]
    , interval := 1095
    , boosterRequired := true
    , travelRequired := ["India", "Southeast Asia", "Africa", "Central America"]
    , priority := .travel
    , diseases := ["Typhoid Fever"] }
  , { name := "Meningococcal ACWY"
    , description := "Protection against meningococcal disease"
    , ageGroups := ["11-12 years", "16 years (booster)"]
    , contraindications := ["Previous severe reaction"]
    , interval := 1825
    , boosterRequired := true
    , travelRequired := ["Sub-Saharan Africa", "Saudi Arabia (Hajj)"]
    , priority := .highRisk
    , diseases := ["Meningococcal Disease"] }
  , { name := "Pneumococcal (PPSV23)"
    , description := "Protection against pneumococcal disease"
    , ageGroups := ["65+ years", "2-64 years (high-risk)"]
    , contraindications := ["Previous severe reaction"]
    , interval := 1825
    , boosterRequired := true
    , travelRequired := []
    , priority := .highRisk
    , diseases := ["Pneumococcal Disease"] } ]

/-- One age-group rule of `checkEligibility`: the body of the
`vaccine.ageGroups.some(...)` callback. -/
def ageGroupSatisfied (ageGroup : String) (age : Int) : Bool :=
  if ageGroup == "Birth+" then true
  else if jsIncludes ageGroup "+" then
    match jsParseInt ((jsSplit ageGroup '+').headD "") with
    | some minAge => decide (minAge ≤ age)
    | none => false
  else if jsIncludes ageGroup "-" then
    let pieces := jsSplit ageGroup '-'
    match jsParseInt ((jsSplit (pieces.headD "") ' ').headD ""),
          jsParseInt ((jsSplit ((pieces.drop 1).headD "") ' ').headD "") with
    | some mn, some mx => decide (mn ≤ age) && decide (age ≤ mx)
    | _, _ => false
  else true

/-- The age step of `checkEligibility`: some age-group rule is satisfied. -/
def agePasses (vaccine : VaccineInfo) (patient : Patient) : Bool :=
  vaccine.ageGroups.any (fun g => ageGroupSatisfied g patient.age)

/-- The contraindication step of `checkEligibility`: bidirectional
case-insensitive substring match against allergies and health conditions. -/
def hasContraindication (vaccine : VaccineInfo) (patient : Patient) : Bool :=
  vaccine.contraindications.any (fun contra =>
    patient.allergies.any (fun allergy =>
      jsIncludes (jsToLower allergy) (jsToLower contra) || jsIncludes (jsToLower contra) (jsToLower allergy)) ||
    patient.healthConditions.any (fun c =>
      jsIncludes (jsToLower c) (jsToLower contra) || jsIncludes (jsToLower contra) (jsToLower c)))

/-- `checkEligibility` of `VaccineDatabase.tsx`. -/
def checkEligibility (vaccine : VaccineInfo) (patient : Patient) : Bool :=
  if !(agePasses vaccine patient) then false
  else if hasContraindication vaccine patient then false
  else if vaccine.priority == .travel && !vaccine.travelRequired.isEmpty then
    patient.travelPlans.any (fun trip =>
      vaccine.travelRequired.any (fun region =>
        jsIncludes (jsToLower trip.destination) (jsToLower region) ||
        jsIncludes (jsToLower region) (jsToLower trip.destination)))
  else true

/-- The fixed set of qualifying conditions of the high-risk branch of
`generateRecommendation`. -/
def highRiskQualifying : List String :=
  ["Diabetes", "Heart Disease", "Immunocompromised", "Chronic Kidney Disease", "COPD"]

/-- `generateRecommendation` of `VaccineDatabase.tsx`.  The first component of
the state is the due date, then priority, reason and risk score, initialised to
the defaults (today, medium, empty reason, 50) and updated by the
priority-class branches and the previous-vaccination override. -/
def generateRecommendation (vaccine : VaccineInfo) (patient : Patient) (now : Int) :
    Option VaccineRecommendation :=
  let previousVaccination :=
    patient.previousVaccinations.find? (fun v =>
      jsIncludes (jsToLower v.vaccine) (jsToLower vaccine.name))
  let base : Option (Int × RecPriority × String × Int) :=
    match vaccine.priority with
    | .routine => some (now, .medium, "Routine vaccination recommended for age group", 60)
    | .highRisk =>
      let hasRiskFactors := patient.healthConditions.any (fun c => highRiskQualifying.contains c)
      if hasRiskFactors || patient.age ≥ 65 then
        some (now, .high, "High-risk patient - priority vaccination", 85)
      else
        none
    | .travel =>
      let urgentTravel := patient.travelPlans.any (fun trip =>
        decide (trip.departureDate - now ≤ 30))
      if urgentTravel then some (now + 7, .high, "Urgent travel vaccination needed", 80)
      else some (now + 14, .medium, "Travel vaccination recommended", 65)
    | .outbreak => some (now, .medium, "", 50)
  match base with
  | none => none
  | some (dueDate, priority, reason, riskScore) =>
    let adjusted : Int × RecPriority × String × Int :=
      match previousVaccination with
      | some pv =>
        let daysSinceLast := now - pv.date
        if daysSinceLast < vaccine.interval then
          let nextDueDate := pv.date + vaccine.interval
          if nextDueDate > now then
            (nextDueDate, .low, "Next dose due based on previous vaccination", 30)
          else (dueDate, priority, reason, riskScore)
        else (dueDate, priority, reason, riskScore)
      | none => (dueDate, priority, reason, riskScore)
    some { vaccine := vaccine.name
         , priority := adjusted.2.1
         , dueDate := adjusted.1
         , reason := adjusted.2.2.1
         , riskScore := adjusted.2.2.2
         , interactions := vaccine.contraindications }

/-- Sort weight of a recommendation priority (`priorityOrder`). -/
def priorityWeight : RecPriority → Int
  | .high => 3
  | .medium => 2
  | .low => 1

/-- The recommendation pipeline of the `useEffect` in `VaccineDatabase.tsx`:
eligible vaccines produce recommendations, stably sorted descending by
priority weight. -/
def generateRecommendations (patient : Patient) (now : Int) : List VaccineRecommendation :=
  let recs := vaccineDatabase.filterMap (fun v =>
    if checkEligibility v patient then generateRecommendation v patient now else none)
  List.insertionSort (fun a b => priorityWeight b.priority ≤ priorityWeight a.priority) recs

/-- High-risk condition lookup set of `calculateRiskFactors`. -/
def highRiskConditions : List String :=
  ["Immunocompromised", "Heart Disease", "Diabetes", "Chronic Kidney Disease", "Cancer"]

/-- Medium-risk condition lookup set of `calculateRiskFactors`. -/
def mediumRiskConditions : List String :=
  ["Asthma", "COPD", "Hypertension"]

/-- High-risk destination lookup set of `calculateRiskFactors`. -/
def highRiskDestinations : List String :=
  ["Sub-Saharan Africa", "Southeast Asia", "South America", "India"]

/-- Medium-risk destination lookup set of `calculateRiskFactors`. -/
def mediumRiskDestinations : List String :=
  ["Eastern Europe", "Central America", "Middle East"]

/-- `calculateRiskFactors` of `RiskAssessment.tsx`.  The `recommendations`
prop of the component is passed explicitly. -/
def calculateRiskFactors (patient : Patient)
    (recommendations : List VaccineRecommendation) : List RiskFactor :=
  (if patient.age ≥ 65 then
    [{ category := "Demographics", factor := "Advanced Age (65+)", riskLevel := .high
     , impact := 25
     , description := "Older adults have higher risk for severe complications from vaccine-preventable diseases" }]
   else if patient.age ≤ 2 then
    [{ category := "Demographics", factor := "Young Age (<2 years)", riskLevel := .high
     , impact := 20
     , description := "Young children have immature immune systems and higher risk of complications" }]
   else [])
  ++ patient.healthConditions.flatMap (fun c =>
      if highRiskConditions.contains c then
        [{ category := "Health Conditions", factor := c, riskLevel := .high, impact := 20
         , description := c ++ " increases risk of severe complications from infectious diseases" }]
      else if mediumRiskConditions.contains c then
        [{ category := "Health Conditions", factor := c, riskLevel := .medium, impact := 10
         , description := c ++ " may increase risk of complications from certain diseases" }]
      else [])
  ++ patient.travelPlans.flatMap (fun trip =>
      let isHighRisk := highRiskDestinations.any (fun region =>
        jsIncludes (jsToLower trip.destination) (jsToLower region))
      let isMediumRisk := mediumRiskDestinations.any (fun region =>
        jsIncludes (jsToLower trip.destination) (jsToLower region))
      if isHighRisk then
        [{ category := "Travel", factor := "High-risk travel to " ++ trip.destination
         , riskLevel := .high, impact := 15
         , description := "Travel to " ++ trip.destination ++ " requires additional vaccinations due to endemic diseases" }]
      else if isMediumRisk then
        [{ category := "Travel", factor := "Medium-risk travel to " ++ trip.destination
         , riskLevel := .medium, impact := 8
         , description := "Travel to " ++ trip.destination ++ " may require additional precautions" }]
      else [])
  ++ (let highPriorityVaccines :=
        (recommendations.filter (fun r => r.priority == .high)).length
      if highPriorityVaccines > 0 then
        [{ category := "Vaccination Status"
         , factor := toString highPriorityVaccines ++ " high-priority vaccines needed"
         , riskLevel := .high, impact := (highPriorityVaccines : Int) * 5
         , description := "Missing high-priority vaccinations increases disease susceptibility" }]
      else [])

/-- `calculateOverallRisk` of `RiskAssessment.tsx`: baseline 20 plus the sum
of all factor impacts, clamped above at 100. -/
def calculateOverallRisk (factors : List RiskFactor) : Int :=
  let baseRisk : Int := 20
  let totalImpact := factors.foldl (fun sum f => sum + f.impact) 0
  min 100 (baseRisk + totalImpact)

/-- An appointment (interface `OptimizedSchedule` of the schedule optimizer). -/
structure OptimizedSchedule where
  date : Int
  vaccines : List VaccineRecommendation
  conflicts : List String
  notes : String
deriving DecidableEq, Repr

/-- The fixed live-vaccine set of `checkVaccineConflicts`. -/
def liveVaccines : List String := ["Yellow Fever", "Japanese Encephalitis"]

/-- `checkVaccineConflicts` of the schedule optimizer: live-vaccine pairs and
differing hepatitis vaccines on the same candidate appointment. -/
def checkVaccineConflicts (newVaccine : VaccineRecommendation)
    (existingVaccines : List VaccineRecommendation) : List String :=
  let isNewLive := liveVaccines.any (fun v => jsIncludes newVaccine.vaccine v)
  let hasExistingLive := existingVaccines.any (fun v =>
    liveVaccines.any (fun lv => jsIncludes v.vaccine lv))
  (if isNewLive && hasExistingLive then
    ["Multiple live vaccines scheduled - requires 4-week separation"]
   else [])
  ++ (if existingVaccines.any (fun v =>
        jsIncludes v.vaccine "Hepatitis" && jsIncludes newVaccine.vaccine "Hepatitis") then
        (if !(existingVaccines.any (fun v => v.vaccine == newVaccine.vaccine)) then
          ["Different hepatitis vaccines - consider combination vaccine"]
         else [])
      else [])

/-- `generateSchedulingNotes` of the schedule optimizer. -/
def generateSchedulingNotes (rec : VaccineRecommendation) (patient : Patient)
    (now : Int) : String :=
  let notes : List String :=
    (if rec.priority == .high then ["High priority - schedule as soon as possible."] else [])
    ++ (if jsIncludes rec.vaccine "Travel" || jsIncludes rec.reason "travel" then
          match patient.travelPlans.find? (fun trip =>
            decide (trip.departureDate - now ≤ 60) && decide (trip.departureDate - now > 0)) with
          | some trip =>
            ["Required for travel to " ++ trip.destination ++ " on " ++
              toString trip.departureDate ++ "."]
          | none => []
        else [])
    ++ (if rec.interactions.length > 0 then
          ["Monitor for: " ++ String.intercalate ", " (rec.interactions.take 2) ++ "."]
        else [])
  if notes.isEmpty then "Routine vaccination as recommended."
  else String.intercalate " " notes

/-- Mutable state of the scheduling loop of `generateOptimizedSchedule`. -/
structure SchedState where
  schedule : List OptimizedSchedule
  processed : List String
  currentDate : Int
deriving Repr

/-- Replace the first element satisfying `p` (the in-place mutation of the
appointment found by `schedule.find`). -/
def updateFirst (p : α → Bool) (f : α → α) : List α → List α
  | [] => []
  | x :: xs => if p x then f x :: xs else x :: updateFirst p f xs

/-- The 24-hour window test of `generateOptimizedSchedule` at day
granularity: the two dates differ by strictly less than one day. -/
def sameDay (a b : Int) : Bool := (a - b).natAbs < 1

/-- One iteration of the `sortedRecs.forEach` loop of
`generateOptimizedSchedule`. -/
def scheduleStep (patient : Patient) (now : Int) (st : SchedState)
    (rec : VaccineRecommendation) : SchedState :=
  if st.processed.contains rec.vaccine then st else
  let scheduledDate := max st.currentDate rec.dueDate
  let existing := st.schedule.find? (fun appt => sameDay appt.date scheduledDate)
  let conflicts := checkVaccineConflicts rec
    (match existing with
     | some appt => appt.vaccines
     | none => [])
  let notes := generateSchedulingNotes rec patient now
  let schedule :=
    if existing.isSome && conflicts.isEmpty then
      updateFirst (fun appt => sameDay appt.date scheduledDate)
        (fun appt => { appt with
          vaccines := appt.vaccines ++ [rec],
          notes := appt.notes ++ " " ++ notes }) st.schedule
    else if !conflicts.isEmpty then
      st.schedule ++ [{ date := scheduledDate + 7, vaccines := [rec], conflicts := conflicts,
                        notes := notes ++ " Rescheduled due to vaccine interactions." }]
    else
      st.schedule ++ [{ date := scheduledDate, vaccines := [rec], conflicts := [], notes := notes }]
  { schedule := schedule
  , processed := st.processed ++ [rec.vaccine]
  , currentDate := scheduledDate + 1 }

/-- The priority-then-due-date comparator of `generateOptimizedSchedule`,
as a total preorder suitable for a stable sort: `a` may come before `b`. -/
def schedBefore (a b : VaccineRecommendation) : Prop :=
  priorityWeight b.priority < priorityWeight a.priority ∨
  (priorityWeight a.priority = priorityWeight b.priority ∧ a.dueDate ≤ b.dueDate)

instance : DecidableRel schedBefore := fun a b =>
  inferInstanceAs (Decidable (priorityWeight b.priority < priorityWeight a.priority ∨
    (priorityWeight a.priority = priorityWeight b.priority ∧ a.dueDate ≤ b.dueDate)))

/-- `generateOptimizedSchedule` of the schedule optimizer: stable sort by
priority descending then due date ascending, a single scheduling pass, and a
final sort of the appointments by date. -/
def generateOptimizedSchedule (recs : List VaccineRecommendation) (patient : Patient)
    (now : Int) : List OptimizedSchedule :=
  let sortedRecs := List.insertionSort schedBefore recs
  let final := sortedRecs.foldl (scheduleStep patient now)
    { schedule := [], processed := [], currentDate := now }
  List.insertionSort (fun a b => a.date ≤ b.date) final.schedule

/-- Notification channel of a reminder. -/
inductive ReminderChannel
  | email
  | sms
  | push
deriving DecidableEq, Repr

instance : BEq ReminderChannel := ⟨fun a b => decide (a = b)⟩

/-- Rendering of a channel used in reminder ids. -/
def channelName : ReminderChannel → String
  | .email => "email"
  | .sms => "sms"
  | .push => "push"

/-- Status of a scheduled reminder. -/
inductive ReminderStatus
  | scheduled
  | sent
  | failed
deriving DecidableEq, Repr

/-- Reminder preferences (interface `ReminderPreferences`). -/
structure ReminderPreferences where
  email : Bool
  sms : Bool
  push : Bool
  advanceDays : Int
  preferredTime : String
  emailAddress : String
  phoneNumber : String
deriving DecidableEq, Repr

/-- A scheduled reminder (interface `ScheduledReminder`); `reminderDate` is
the fire date. -/
structure ScheduledReminder where
  id : String
  vaccine : String
  appointmentDate : Int
  reminderDate : Int
  type : ReminderChannel
  status : ReminderStatus
  priority : RecPriority
deriving DecidableEq, Repr

/-- The enabled channel list of `generateReminders`: email needs a configured
address, sms a configured number, push only the flag (JavaScript truthiness of
the configured strings is non-emptiness). -/
def reminderTypes (prefs : ReminderPreferences) : List ReminderChannel :=
  (if prefs.email && !(prefs.emailAddress == "") then [.email] else [])
  ++ (if prefs.sms && !(prefs.phoneNumber == "") then [.sms] else [])
  ++ (if prefs.push then [.push] else [])

/-- The reminders emitted for one recommendation at position `index` of the
input list: a base reminder per enabled channel at `dueDate - advanceDays`,
plus for high priority a follow-up per enabled channel the day before. -/
def remindersForRec (rec : VaccineRecommendation) (index : Nat)
    (prefs : ReminderPreferences) (now : Int) : List ScheduledReminder :=
  let reminderDate := rec.dueDate - prefs.advanceDays
  let types := reminderTypes prefs
  types.map (fun t =>
    { id := rec.vaccine ++ "-" ++ channelName t ++ "-" ++ toString index
    , vaccine := rec.vaccine
    , appointmentDate := rec.dueDate
    , reminderDate := reminderDate
    , type := t
    , status := if reminderDate < now then .sent else .scheduled
    , priority := rec.priority })
  ++ (if rec.priority == .high then
      let followUpDate := rec.dueDate - 1
      types.map (fun t =>
        { id := rec.vaccine ++ "-" ++ channelName t ++ "-followup-" ++ toString index
        , vaccine := rec.vaccine ++ " (Final Reminder)"
        , appointmentDate := rec.dueDate
        , reminderDate := followUpDate
        , type := t
        , status := if followUpDate < now then .sent else .scheduled
        , priority := rec.priority })
     else [])

/-- The `recs.forEach` loop of `generateReminders`, carrying the index. -/
def remindersAux (prefs : ReminderPreferences) (now : Int) :
    Nat → List VaccineRecommendation → List ScheduledReminder
  | _, [] => []
  | i, rec :: rest =>
    remindersForRec rec i prefs now ++ remindersAux prefs now (i + 1) rest

/-- `generateReminders` of `ReminderSystem` (in `PatientProfile.tsx`):
emit reminders per recommendation and sort ascending by fire date. -/
def generateReminders (recs : List VaccineRecommendation)
    (prefs : ReminderPreferences) (now : Int) : List ScheduledReminder :=
  List.insertionSort (fun a b => a.reminderDate ≤ b.reminderDate)
    (remindersAux prefs now 0 recs)

/-! ### Concrete fixtures used by witnesses and counterexamples -/

/-- A baseline adult patient with no conditions, allergies, travel plans or
previous vaccinations. -/
def baselinePatient : Patient :=
  { id := "p0", name := "Baseline", age := 30, dateOfBirth := "1995-01-01"
  , healthConditions := [], allergies := [], travelPlans := []
  , previousVaccinations := [], riskFactors := [] }

/-- The `Hepatitis B` catalog entry. -/
def hepatitisBEntry : VaccineInfo :=
  { name := "Hepatitis B"
  , description := "Protection against hepatitis B virus"
  , ageGroups := ["Birth+"]
  , contraindications := ["Previous severe reaction", "Yeast"]
  , interval := 28
  , boosterRequired := false
  , travelRequired := ["Asia", "Africa", "Eastern Europe"]
  , priority := .routine
  , diseases := ["Hepatitis B"] }

/-- The `Yellow Fever` catalog entry. -/
def yellowFeverEntry : VaccineInfo :=
  { name := "Yellow Fever"
  , description := "Protection against yellow fever virus"
  , ageGroups := ["9+ months"]
  , contraindications := ["Immunocompromised", "Eggs", "60+ years (relative)"]
  , interval := 0
  , boosterRequired := false
  , travelRequired := ["Sub-Saharan Africa", "Tropical South America"]
  , priority := .travel
  , diseases := ["Yellow Fever"] }

/-! ### C1: overall risk score -/

/-- Folding the impacts from an arbitrary accumulator adds the sum of the
impacts. -/
theorem foldl_add_impact (l : List RiskFactor) (a : Int) :
    l.foldl (fun sum f => sum + f.impact) a = a + (l.map (fun f => f.impact)).sum := by
  induction l generalizing a with
  | nil => simp
  | cons f t ih => simp [ih, add_assoc]

/-- Every factor generated by `calculateRiskFactors` has non-negative impact. -/
theorem calculateRiskFactors_impact_nonneg (p : Patient)
    (recs : List VaccineRecommendation) :
    ∀ f ∈ calculateRiskFactors p recs, 0 ≤ f.impact := by
  intro f hf
  unfold calculateRiskFactors at hf
  simp only [List.mem_append, List.mem_flatMap] at hf
  rcases hf with ((hf | ⟨c, _, hf⟩) | ⟨t, _, hf⟩) | hf
  · split_ifs at hf <;> simp_all
  · split_ifs at hf <;> simp_all
  · split_ifs at hf <;> simp_all
  · simp only [gt_iff_lt] at hf
    split_ifs at hf <;> simp_all

/-- C1: for every patient and recommendation list, the overall risk score is
`min 100 (20 + sum of factor impacts)`, lies in `[0, 100]`, and equals exactly
`20` when no risk factor is generated. -/
theorem overallRisk_formula_and_bounds (p : Patient) (recs : List VaccineRecommendation) :
    calculateOverallRisk (calculateRiskFactors p recs)
      = min 100 (20 + ((calculateRiskFactors p recs).map (fun f => f.impact)).sum)
    ∧ 0 ≤ calculateOverallRisk (calculateRiskFactors p recs)
    ∧ calculateOverallRisk (calculateRiskFactors p recs) ≤ 100
    ∧ (calculateRiskFactors p recs = [] →
        calculateOverallRisk (calculateRiskFactors p recs) = 20) := by
  have hform : calculateOverallRisk (calculateRiskFactors p recs)
      = min 100 (20 + ((calculateRiskFactors p recs).map (fun f => f.impact)).sum) := by
    simp [calculateOverallRisk, foldl_add_impact]
  have hsum : 0 ≤ ((calculateRiskFactors p recs).map (fun f => f.impact)).sum := by
    apply List.sum_nonneg
    intro x hx
    simp only [List.mem_map] at hx
    obtain ⟨f, hf, rfl⟩ := hx
    exact calculateRiskFactors_impact_nonneg p recs f hf
  refine ⟨hform, ?_, ?_, ?_⟩
  · rw [hform]
    exact le_min (by norm_num) (by linarith)
  · rw [hform]
    exact min_le_left _ _
  · intro hnil
    simp [calculateOverallRisk, hnil]

/-- Witness for C1: the baseline patient with no recommendations produces no
risk factors and scores exactly 20. -/
theorem overallRisk_formula_and_bounds_witness :
    calculateOverallRisk (calculateRiskFactors baselinePatient []) = 20 :=
  (overallRisk_formula_and_bounds baselinePatient []).2.2.2 (by decide)

/-! ### C2: previous-vaccination override -/

/-- C2: whenever the first previous-vaccination record whose name contains the
vaccine's name (case-insensitively) is recent (days since last dose below the
catalog interval) and the next due date is still in the future, any
recommendation that `generateRecommendation` produces carries the override
values: priority low, risk score 30, the override reason, and due date
`last dose + interval` — regardless of the priority-class branch. -/
theorem previous_vaccination_override (vaccine : VaccineInfo) (patient : Patient)
    (now : Int) (pv : PreviousVaccination) (rec : VaccineRecommendation)
    (hfind : patient.previousVaccinations.find?
      (fun v => jsIncludes (jsToLower v.vaccine) (jsToLower vaccine.name)) = some pv)
    (hdays : now - pv.date < vaccine.interval)
    (hfut : pv.date + vaccine.interval > now)
    (hrec : generateRecommendation vaccine patient now = some rec) :
    rec.priority = .low ∧ rec.riskScore = 30 ∧
    rec.reason = "Next dose due based on previous vaccination" ∧
    rec.dueDate = pv.date + vaccine.interval := by
  unfold generateRecommendation at hrec
  rw [hfind] at hrec
  cases hvp : vaccine.priority <;> rw [hvp] at hrec <;>
    simp only [hdays, hfut, if_true, gt_iff_lt, if_pos] at hrec
  case routine =>
    injection hrec with h
    subst h
    exact ⟨rfl, rfl, rfl, rfl⟩
  case highRisk =>
    split at hrec
    · exact Option.noConfusion hrec
    · injection hrec with h
      subst h
      exact ⟨rfl, rfl, rfl, rfl⟩
  case travel =>
    split at hrec
    · exact Option.noConfusion hrec
    · injection hrec with h
      subst h
      exact ⟨rfl, rfl, rfl, rfl⟩
  case outbreak =>
    injection hrec with h
    subst h
    exact ⟨rfl, rfl, rfl, rfl⟩

/-- The patient of the C2 scenario: a Hepatitis B dose 10 days before `now`
(day 1000). -/
def hepBPatient : Patient :=
  { baselinePatient with
    previousVaccinations := [{ vaccine := "Hepatitis B", date := 990, nextDue := none }] }

/-- Witness for C2 (the spec scenario): a prior Hepatitis B dose 10 days ago
with interval 28 yields priority low, risk score 30 and due date
`dose date + 28`. -/
theorem previous_vaccination_override_witness :
    ∃ rec, generateRecommendation hepatitisBEntry hepBPatient 1000 = some rec ∧
      rec.priority = .low ∧ rec.riskScore = 30 ∧
      rec.reason = "Next dose due based on previous vaccination" ∧
      rec.dueDate = 1018 := by
  have h := previous_vaccination_override hepatitisBEntry hepBPatient 1000
    { vaccine := "Hepatitis B", date := 990, nextDue := none }
    { vaccine := "Hepatitis B", priority := .low, dueDate := 1018
    , reason := "Next dose due based on previous vaccination", riskScore := 30
    , interactions := ["Previous severe reaction", "Yeast"] }
    (by decide) (by decide) (by decide) (by decide)
  exact ⟨_, by decide, h.1, h.2.1, h.2.2.1, h.2.2.2.trans (by decide)⟩

/-! ### C10: eligible outbreak-class vaccines fall through to the defaults -/

/-- C10: for an eligible vaccine of (undocumented) priority class `outbreak`,
when the previous-vaccination override does not apply,
`generateRecommendation` returns default values: priority medium, risk score
50, empty reason, due date today. -/
theorem outbreak_default_recommendation (vaccine : VaccineInfo) (patient : Patient)
    (now : Int)
    (hclass : vaccine.priority = .outbreak)
    (hnoov : ∀ pv, patient.previousVaccinations.find?
        (fun v => jsIncludes (jsToLower v.vaccine) (jsToLower vaccine.name)) = some pv →
      ¬(now - pv.date < vaccine.interval ∧ pv.date + vaccine.interval > now)) :
    generateRecommendation vaccine patient now =
      some { vaccine := vaccine.name, priority := .medium, dueDate := now
           , reason := "", riskScore := 50, interactions := vaccine.contraindications } := by
  unfold generateRecommendation
  rw [hclass]
  cases hf : patient.previousVaccinations.find?
      (fun v => jsIncludes (jsToLower v.vaccine) (jsToLower vaccine.name)) with
  | none => simp
  | some pv =>
    have hno := hnoov pv hf
    by_cases h1 : now - pv.date < vaccine.interval
    · by_cases h2 : pv.date + vaccine.interval > now
      · exact absurd ⟨h1, h2⟩ hno
      · simp [h1, h2]
    · simp [h1]

/-- A synthetic outbreak-class catalog entry (the shipped catalog contains
none). -/
def outbreakEntry : VaccineInfo :=
  { name := "Outbreak Response Vaccine"
  , description := "Synthetic outbreak-class entry"
  , ageGroups := ["Birth+"]
  , contraindications := ["Previous severe reaction"]
  , interval := 30
  , boosterRequired := false
  , travelRequired := []
  , priority := .outbreak
  , diseases := ["Outbreak Disease"] }

/-- Witness for C10: the outbreak defaults at a concrete patient and date. -/
theorem outbreak_default_recommendation_witness :
    generateRecommendation outbreakEntry baselinePatient 500 =
      some { vaccine := "Outbreak Response Vaccine", priority := .medium, dueDate := 500
           , reason := "", riskScore := 50
           , interactions := ["Previous severe reaction"] } :=
  outbreak_default_recommendation outbreakEntry baselinePatient 500 rfl
    (fun pv h => by simp [baselinePatient] at h)

/-! ### C3: age-group rule grammar -/

/-- The age-rule grammar exactly as the specification words it (claim C3):
`"Birth+"` always true; a rule of the form `"N+"` true iff `age ≥ N`; a rule
of the form `"N-M"` true iff `N ≤ age ≤ M`; any other rule string
unconditionally true (permissive fallback). -/
def ageRuleClaimed (rule : String) (age : Int) : Bool :=
  if rule == "Birth+" then true
  else
    match (if jsIncludes rule "+" then jsParseInt ((jsSplit rule '+').headD "") else none) with
    | some n => decide (n ≤ age)
    | none =>
      match (if jsIncludes rule "-" then
               match jsParseInt ((jsSplit ((jsSplit rule '-').headD "") ' ').headD ""),
                     jsParseInt ((jsSplit (((jsSplit rule '-').drop 1).headD "") ' ').headD "") with
               | some mn, some mx => some (mn, mx)
               | _, _ => none
             else none) with
      | some (mn, mx) => decide (mn ≤ age) && decide (age ≤ mx)
      | none => true

/-- A catalog entry whose only age rule contains `+` with a non-numeric
prefix. -/
def nonNumericRuleVaccine : VaccineInfo :=
  { name := "Test Vaccine", description := "", ageGroups := ["x+"]
  , contraindications := [], interval := 0, boosterRequired := false
  , travelRequired := [], priority := .routine, diseases := [] }

/-- Counterexample for C3: the rule `"x+"` is neither `"Birth+"`, `"N+"` nor
`"N-M"`, so by the claimed permissive fallback it should be unconditionally
satisfied, yet the code parses `NaN` from the text before `+` and the
comparison is always false, making the patient fail the age step. -/
theorem age_rule_fallback_counterexample :
    ageGroupSatisfied "x+" 30 = false ∧ ageRuleClaimed "x+" 30 = true ∧
    agePasses nonNumericRuleVaccine baselinePatient = false := by
  refine ⟨by decide, by decide, by decide⟩

/-- C3 (amended): the age check treats `"Birth+"` as always satisfied; a rule
containing `+` is satisfied iff the text before the first `+` parses to an
integer `N` with `age ≥ N` (never satisfied when the prefix is non-numeric);
otherwise a rule containing `-` is satisfied iff the first space-token of each
of the first two `-`-separated pieces parse to integers `N ≤ age ≤ M`; a rule
containing neither `+` nor `-` is unconditionally satisfied; and the patient
passes the age step iff at least one rule is satisfied. -/
theorem ageEligibility_amended :
    (∀ (rule : String) (age : Int),
      ageGroupSatisfied rule age = true ↔
        (rule = "Birth+"
         ∨ (rule ≠ "Birth+" ∧ jsIncludes rule "+" = true ∧
              ∃ n, jsParseInt ((jsSplit rule '+').headD "") = some n ∧ n ≤ age)
         ∨ (rule ≠ "Birth+" ∧ jsIncludes rule "+" = false ∧ jsIncludes rule "-" = true ∧
              ∃ mn mx,
                jsParseInt ((jsSplit ((jsSplit rule '-').headD "") ' ').headD "") = some mn ∧
                jsParseInt ((jsSplit (((jsSplit rule '-').drop 1).headD "") ' ').headD "") = some mx ∧
                mn ≤ age ∧ age ≤ mx)
         ∨ (rule ≠ "Birth+" ∧ jsIncludes rule "+" = false ∧ jsIncludes rule "-" = false)))
    ∧ ∀ (v : VaccineInfo) (p : Patient),
        agePasses v p = true ↔ ∃ g ∈ v.ageGroups, ageGroupSatisfied g p.age = true := by
  constructor
  · intro rule age
    unfold ageGroupSatisfied
    by_cases hb : rule = "Birth+"
    · simp [hb]
    · have hb' : (rule == "Birth+") = false := by simp [hb]
      rw [hb']
      simp only [Bool.false_eq_true, if_false]
      by_cases hplus : jsIncludes rule "+" = true
      · rw [hplus]
        simp only [if_true]
        cases hp : jsParseInt ((jsSplit rule '+').headD "") with
        | some n => simp [hb, hplus, hp]
        | none => simp [hb, hplus, hp]
      · have hplus' : jsIncludes rule "+" = false := by
          cases h : jsIncludes rule "+"
          · rfl
          · exact absurd h hplus
        rw [hplus']
        simp only [Bool.false_eq_true, if_false]
        by_cases hminus : jsIncludes rule "-" = true
        · rw [hminus]
          simp only [if_true]
          cases hmn : jsParseInt ((jsSplit ((jsSplit rule '-').headD "") ' ').headD "") with
          | some mn =>
            cases hmx : jsParseInt ((jsSplit (((jsSplit rule '-').drop 1).headD "") ' ').headD "") with
            | some mx => simp [hb, hplus', hminus, hmn, hmx, and_assoc]
            | none => simp [hb, hplus', hminus, hmn, hmx]
          | none => simp [hb, hplus', hminus, hmn]
        · have hminus' : jsIncludes rule "-" = false := by
            cases h : jsIncludes rule "-"
            · rfl
            · exact absurd h hminus
          rw [hminus']
          simp [hb, hplus', hminus']
  · intro v p
    unfold agePasses
    simp [List.any_eq_true]

/-! ### C7: travel-class priority and due date -/

/-- The urgency condition as the specification words it (claim C7): some
travel plan departs within 30 days from now, i.e. on a day between `now` and
`now + 30`. -/
def departsWithin30 (patient : Patient) (now : Int) : Bool :=
  patient.travelPlans.any (fun t =>
    decide (now ≤ t.departureDate) && decide (t.departureDate ≤ now + 30))

/-- A patient whose only trip to a Yellow Fever region departed 40 days
before day 1000. -/
def pastTripPatient : Patient :=
  { baselinePatient with
    travelPlans := [{ destination := "Sub-Saharan Africa", departureDate := 960
                    , returnDate := 970 }] }

/-- Counterexample for C7: the patient's only travel plan departed 40 days
ago, so no plan "departs within 30 days from now" and the claim requires the
non-urgent branch (medium, 65, now+14); the code's urgency test
`daysUntilTravel <= 30` has no lower bound, so the past departure triggers
the urgent branch (high, 80, now+7). -/
theorem travel_urgency_counterexample :
    checkEligibility yellowFeverEntry pastTripPatient = true ∧
    departsWithin30 pastTripPatient 1000 = false ∧
    generateRecommendation yellowFeverEntry pastTripPatient 1000 =
      some { vaccine := "Yellow Fever", priority := .high, dueDate := 1007
           , reason := "Urgent travel vaccination needed", riskScore := 80
           , interactions := ["Immunocompromised", "Eggs", "60+ years (relative)"] } := by
  refine ⟨by decide, by decide, by decide⟩

/-- C7 (amended): for a travel-class vaccine and a patient with no matching
prior-dose record, urgency holds iff some travel plan departs at most 30 days
from now — with no lower bound, so already-departed trips also count — and
the recommendation is high/80/now+7 when urgent, else medium/65/now+14. -/
theorem travel_class_recommendation (vaccine : VaccineInfo) (patient : Patient)
    (now : Int)
    (hclass : vaccine.priority = .travel)
    (hprev : patient.previousVaccinations.find?
      (fun v => jsIncludes (jsToLower v.vaccine) (jsToLower vaccine.name)) = none) :
    generateRecommendation vaccine patient now =
      (if patient.travelPlans.any (fun trip => decide (trip.departureDate - now ≤ 30)) then
        some { vaccine := vaccine.name, priority := .high, dueDate := now + 7
             , reason := "Urgent travel vaccination needed", riskScore := 80
             , interactions := vaccine.contraindications }
       else
        some { vaccine := vaccine.name, priority := .medium, dueDate := now + 14
             , reason := "Travel vaccination recommended", riskScore := 65
             , interactions := vaccine.contraindications }) := by
  unfold generateRecommendation
  rw [hclass, hprev]
  cases hu : patient.travelPlans.any (fun trip => decide (trip.departureDate - now ≤ 30)) <;>
    simp [hu]

/-- The patient of the C7 scenario: a trip to Sub-Saharan Africa departing 10
days after day 1000. -/
def soonTripPatient : Patient :=
  { baselinePatient with
    travelPlans := [{ destination := "Sub-Saharan Africa", departureDate := 1010
                    , returnDate := 1030 }] }

/-- Witness for C7 (the spec scenario): a trip to Sub-Saharan Africa
departing in 10 days yields a Yellow Fever recommendation at priority high
with due date now + 7. -/
theorem travel_class_recommendation_witness :
    checkEligibility yellowFeverEntry soonTripPatient = true ∧
    generateRecommendation yellowFeverEntry soonTripPatient 1000 =
      some { vaccine := "Yellow Fever", priority := .high, dueDate := 1007
           , reason := "Urgent travel vaccination needed", riskScore := 80
           , interactions := ["Immunocompromised", "Eggs", "60+ years (relative)"] } :=
  ⟨by decide,
   (travel_class_recommendation yellowFeverEntry soonTripPatient 1000 rfl rfl).trans
     (by decide)⟩

/-! ### C8: the age-70 heart-disease scenario -/

/-- The patient of the C8 scenario. -/
def heartDiseasePatient : Patient :=
  { id := "p8", name := "Scenario", age := 70, dateOfBirth := "1955-01-01"
  , healthConditions := ["Heart Disease"], allergies := [], travelPlans := []
  , previousVaccinations := [], riskFactors := [] }

/-- C8: the full pipeline on a patient of age 70 with heart disease, no
allergies and no travel produces Pneumococcal (PPSV23) and Meningococcal ACWY
recommendations at priority high with risk score 85, and the risk assessment
contains the "Advanced Age (65+)" factor with impact 25. -/
theorem heart_disease_scenario :
    ((generateRecommendations heartDiseasePatient 1000).any (fun r =>
        r.vaccine == "Pneumococcal (PPSV23)" && r.priority == RecPriority.high
          && r.riskScore == 85)) = true
  ∧ ((generateRecommendations heartDiseasePatient 1000).any (fun r =>
        r.vaccine == "Meningococcal ACWY" && r.priority == RecPriority.high
          && r.riskScore == 85)) = true
  ∧ ((calculateRiskFactors heartDiseasePatient
        (generateRecommendations heartDiseasePatient 1000)).any (fun f =>
        f.factor == "Advanced Age (65+)" && f.impact == 25)) = true := by
  refine ⟨by decide, by decide, by decide⟩

/-! ### Schedule optimizer helper lemmas -/

/-- A recommendation with no co-scheduled vaccines never conflicts. -/
theorem checkVaccineConflicts_nil (r : VaccineRecommendation) :
    checkVaccineConflicts r [] = [] := by
  simp [checkVaccineConflicts]

/-- Decomposition of `updateFirst` at the element returned by `find?`. -/
theorem updateFirst_decomp (p : α → Bool) (f : α → α) (l : List α) (a : α)
    (h : l.find? p = some a) :
    ∃ l1 l2, l = l1 ++ a :: l2 ∧ (∀ x ∈ l1, p x = false) ∧
      updateFirst p f l = l1 ++ f a :: l2 := by
  induction l with
  | nil => simp at h
  | cons x xs ih =>
    by_cases hp : p x = true
    · rw [List.find?_cons_of_pos _ hp] at h
      obtain rfl : x = a := by injection h
      exact ⟨[], xs, rfl, by simp, by simp [updateFirst, hp]⟩
    · have hp' : p x = false := by
        cases hx : p x
        · rfl
        · exact absurd hx hp
      rw [List.find?_cons_of_neg _ (by simp [hp'])] at h
      obtain ⟨l1, l2, h1, h2, h3⟩ := ih h
      exact ⟨x :: l1, l2, by simp [h1], by
        intro y hy
        rcases List.mem_cons.mp hy with rfl | hy
        · exact hp'
        · exact h2 y hy, by simp [updateFirst, hp', h3]⟩

/-! ### C6: a single recommendation round-trips to a single appointment -/

/-- C6: a one-element recommendation list yields exactly one appointment,
dated `max now dueDate`, which is at least the recommendation's due date. -/
theorem single_recommendation_schedule (r : VaccineRecommendation) (patient : Patient)
    (now : Int) :
    generateOptimizedSchedule [r] patient now =
      [{ date := max now r.dueDate, vaccines := [r], conflicts := []
       , notes := generateSchedulingNotes r patient now }]
    ∧ ∀ appt ∈ generateOptimizedSchedule [r] patient now, r.dueDate ≤ appt.date := by
  have h : generateOptimizedSchedule [r] patient now =
      [{ date := max now r.dueDate, vaccines := [r], conflicts := []
       , notes := generateSchedulingNotes r patient now }] := by
    unfold generateOptimizedSchedule
    simp [List.insertionSort, List.orderedInsert, scheduleStep, checkVaccineConflicts_nil]
  refine ⟨h, ?_⟩
  intro appt ha
  rw [h] at ha
  simp at ha
  rw [ha]
  exact le_max_right _ _

/-! ### C5: no duplicate scheduling -/

/-- All recommendations placed on the appointments of a schedule. -/
def apptRecs (schedule : List OptimizedSchedule) : List VaccineRecommendation :=
  schedule.flatMap (fun a => a.vaccines)

/-- Keep the first recommendation per vaccine name, skipping names already in
`seen` — the effect of the `processedVaccines` set of the optimizer loop. -/
def dedupByName (seen : List String) : List VaccineRecommendation → List VaccineRecommendation
  | [] => []
  | r :: rest =>
    if seen.contains r.vaccine then dedupByName seen rest
    else r :: dedupByName (seen ++ [r.vaccine]) rest

/-- A step on an already-processed vaccine name changes nothing. -/
theorem scheduleStep_skip (patient : Patient) (now : Int) (st : SchedState)
    (rec : VaccineRecommendation) (h : st.processed.contains rec.vaccine = true) :
    scheduleStep patient now st rec = st := by
  unfold scheduleStep
  rw [h, if_pos rfl]

/-- A step on a fresh vaccine name records the name as processed. -/
theorem scheduleStep_processed (patient : Patient) (now : Int) (st : SchedState)
    (rec : VaccineRecommendation) (h : st.processed.contains rec.vaccine = false) :
    (scheduleStep patient now st rec).processed = st.processed ++ [rec.vaccine] := by
  unfold scheduleStep
  rw [h]
  rfl

/-- A step on a fresh vaccine name adds exactly that recommendation (as a
multiset) to the appointments. -/
theorem scheduleStep_recs_perm (patient : Patient) (now : Int) (st : SchedState)
    (rec : VaccineRecommendation) (h : st.processed.contains rec.vaccine = false) :
    List.Perm (apptRecs (scheduleStep patient now st rec).schedule)
      (apptRecs st.schedule ++ [rec]) := by
  unfold scheduleStep
  simp only [h, Bool.false_eq_true, if_false]
  split
  case isTrue hcond =>
    rw [Bool.and_eq_true] at hcond
    obtain ⟨hsome, hempty⟩ := hcond
    obtain ⟨a, ha⟩ := Option.isSome_iff_exists.mp hsome
    obtain ⟨l1, l2, hdec, -, hupd⟩ := updateFirst_decomp
      (fun appt => sameDay appt.date (max st.currentDate rec.dueDate))
      (fun appt => { appt with
        vaccines := appt.vaccines ++ [rec],
        notes := appt.notes ++ " " ++ generateSchedulingNotes rec patient now })
      st.schedule a ha
    rw [hupd, hdec]
    simp only [apptRecs, List.flatMap_append, List.flatMap_cons, List.append_assoc]
    exact List.Perm.append_left _ (List.Perm.append_left _ List.perm_append_comm)
  case isFalse =>
    split
    · simp [apptRecs]
    · simp [apptRecs]

/-- Unfolding equation of `dedupByName` on a cons cell. -/
theorem dedupByName_cons (seen : List String) (r : VaccineRecommendation)
    (rest : List VaccineRecommendation) :
    dedupByName seen (r :: rest) =
      if seen.contains r.vaccine then dedupByName seen rest
      else r :: dedupByName (seen ++ [r.vaccine]) rest := rfl

/-- The appointments accumulated by the scheduling fold hold, as a multiset,
the incoming appointments plus the first occurrence of each fresh vaccine
name. -/
theorem foldl_recs_perm (patient : Patient) (now : Int) :
    ∀ (l : List VaccineRecommendation) (st : SchedState),
    List.Perm (apptRecs (l.foldl (scheduleStep patient now) st).schedule)
      (apptRecs st.schedule ++ dedupByName st.processed l) := by
  intro l
  induction l with
  | nil => intro st; simp [dedupByName]
  | cons r rest ih =>
    intro st
    rw [List.foldl_cons]
    by_cases h : st.processed.contains r.vaccine = true
    · rw [scheduleStep_skip patient now st r h, dedupByName_cons, h, if_pos rfl]
      exact ih st
    · have h' : st.processed.contains r.vaccine = false := by
        cases hc : st.processed.contains r.vaccine
        · rfl
        · exact absurd hc h
      have hstep := scheduleStep_recs_perm patient now st r h'
      have hih := ih (scheduleStep patient now st r)
      rw [scheduleStep_processed patient now st r h'] at hih
      have hcomb := hih.trans (hstep.append_right _)
      rw [dedupByName_cons]
      simp only [h', Bool.false_eq_true, if_false]
      simpa [List.append_assoc] using hcomb

/-- `dedupByName` yields pairwise-distinct names, none of them already seen. -/
theorem dedupByName_nodup :
    ∀ (l : List VaccineRecommendation) (seen : List String),
    ((dedupByName seen l).map (fun r => r.vaccine)).Nodup ∧
    ∀ r ∈ dedupByName seen l, r.vaccine ∉ seen := by
  intro l
  induction l with
  | nil => intro seen; simp [dedupByName]
  | cons r rest ih =>
    intro seen
    by_cases h : seen.contains r.vaccine = true
    · rw [dedupByName_cons, if_pos h]
      exact ih seen
    · have h' : seen.contains r.vaccine = false := by
        cases hc : seen.contains r.vaccine
        · rfl
        · exact absurd hc h
      rw [dedupByName_cons, h']
      simp only [Bool.false_eq_true, if_false]
      constructor
      · simp only [List.map_cons, List.nodup_cons]
        constructor
        · intro hmem
          simp only [List.mem_map] at hmem
          obtain ⟨x, hx, hxeq⟩ := hmem
          exact (ih (seen ++ [r.vaccine])).2 x hx (by simp [hxeq])
        · exact (ih (seen ++ [r.vaccine])).1
      · intro x hx
        rcases List.mem_cons.mp hx with rfl | hx
        · simpa using h'
        · exact fun hmem => (ih (seen ++ [r.vaccine])).2 x hx (by simp [hmem])

/-- The recommendations placed by the optimizer are, as a multiset, exactly
the first occurrence per vaccine name of the priority-then-due-date sorted
input. -/
theorem generateOptimizedSchedule_recs_perm (recs : List VaccineRecommendation)
    (patient : Patient) (now : Int) :
    List.Perm (apptRecs (generateOptimizedSchedule recs patient now))
      (dedupByName [] (List.insertionSort schedBefore recs)) := by
  unfold generateOptimizedSchedule
  have hfold := foldl_recs_perm patient now (List.insertionSort schedBefore recs)
    { schedule := [], processed := [], currentDate := now }
  have hsortperm := List.perm_insertionSort (fun a b : OptimizedSchedule => a.date ≤ b.date)
    ((List.insertionSort schedBefore recs).foldl (scheduleStep patient now)
      { schedule := [], processed := [], currentDate := now }).schedule
  exact (List.Perm.flatMap_right _ hsortperm).trans (by simpa [apptRecs] using hfold)

/-- Across the whole optimized schedule, vaccine names are pairwise
distinct. -/
theorem generateOptimizedSchedule_names_nodup (recs : List VaccineRecommendation)
    (patient : Patient) (now : Int) :
    ((apptRecs (generateOptimizedSchedule recs patient now)).map
      (fun r => r.vaccine)).Nodup := by
  have hperm := generateOptimizedSchedule_recs_perm recs patient now
  have hnd := (dedupByName_nodup (List.insertionSort schedBefore recs) []).1
  exact ((hperm.map (fun r => r.vaccine)).symm).nodup hnd

/-- C5: every vaccine name appears at most once across the appointments of
the optimized schedule; the recommendations kept are exactly the first
occurrence per name of the priority-then-due-date sorted input, later
duplicates being dropped silently. -/
theorem no_duplicate_scheduling (recs : List VaccineRecommendation) (patient : Patient)
    (now : Int) :
    List.Perm (apptRecs (generateOptimizedSchedule recs patient now))
      (dedupByName [] (List.insertionSort schedBefore recs))
    ∧ ((apptRecs (generateOptimizedSchedule recs patient now)).map
        (fun r => r.vaccine)).Nodup :=
  ⟨generateOptimizedSchedule_recs_perm recs patient now,
   generateOptimizedSchedule_names_nodup recs patient now⟩

/-! ### C4: conflict detection and deferral -/

/-- A recommendation counted as a live vaccine by `checkVaccineConflicts`. -/
def liveRec (r : VaccineRecommendation) : Bool :=
  liveVaccines.any (fun lv => jsIncludes r.vaccine lv)

/-- Sequential conflict-freedom: each vaccine of the list, at the moment it
was appended, had no detected conflicts against the vaccines already present
(`seen` holds the vaccines present before the list started). -/
def seqOK : List VaccineRecommendation → List VaccineRecommendation → Prop
  | _, [] => True
  | seen, r :: rest => checkVaccineConflicts r seen = [] ∧ seqOK (seen ++ [r]) rest

/-- Appending a vaccine with no detected conflicts preserves sequential
conflict-freedom. -/
theorem seqOK_append_singleton :
    ∀ (l seen : List VaccineRecommendation) (r : VaccineRecommendation),
    seqOK seen l → checkVaccineConflicts r (seen ++ l) = [] → seqOK seen (l ++ [r]) := by
  intro l
  induction l with
  | nil =>
    intro seen r _ h2
    exact ⟨by simpa using h2, trivial⟩
  | cons a t ih =>
    intro seen r h h2
    exact ⟨h.1, ih (seen ++ [a]) r h.2 (by simpa [List.append_assoc] using h2)⟩

/-- The scheduling fold preserves sequential conflict-freedom of every
appointment. -/
theorem foldl_seqOK (patient : Patient) (now : Int) :
    ∀ (l : List VaccineRecommendation) (st : SchedState),
    (∀ a ∈ st.schedule, seqOK [] a.vaccines) →
    ∀ a ∈ (l.foldl (scheduleStep patient now) st).schedule, seqOK [] a.vaccines := by
  intro l
  induction l with
  | nil => intro st h; simpa using h
  | cons r rest ih =>
    intro st h
    rw [List.foldl_cons]
    apply ih
    intro a ha
    by_cases hc : st.processed.contains r.vaccine = true
    · rw [scheduleStep_skip patient now st r hc] at ha
      exact h a ha
    · have hc' : st.processed.contains r.vaccine = false := by
        cases hcc : st.processed.contains r.vaccine
        · rfl
        · exact absurd hcc hc
      unfold scheduleStep at ha
      simp only [hc', Bool.false_eq_true, if_false] at ha
      split at ha
      next hcond =>
        rw [Bool.and_eq_true] at hcond
        obtain ⟨hsome, hempty⟩ := hcond
        obtain ⟨ex, hex⟩ := Option.isSome_iff_exists.mp hsome
        obtain ⟨l1, l2, hdec, -, hupd⟩ := updateFirst_decomp
          (fun appt => sameDay appt.date (max st.currentDate r.dueDate))
          (fun appt => { appt with
            vaccines := appt.vaccines ++ [r],
            notes := appt.notes ++ " " ++ generateSchedulingNotes r patient now })
          st.schedule ex hex
        rw [hupd] at ha
        rw [hex] at hempty
        have hconf : checkVaccineConflicts r ex.vaccines = [] := by
          simpa [List.isEmpty_iff] using hempty
        rcases List.mem_append.mp ha with ha1 | ha2
        · exact h a (by rw [hdec]; exact List.mem_append_left _ ha1)
        · rcases List.mem_cons.mp ha2 with rfl | ha3
          · have hexmem : ex ∈ st.schedule := by
              rw [hdec]
              exact List.mem_append_right _ (List.mem_cons_self _ _)
            exact seqOK_append_singleton ex.vaccines [] r (h ex hexmem)
              (by simpa using hconf)
          · exact h a (by
              rw [hdec]
              exact List.mem_append_right _ (List.mem_cons_of_mem _ ha3))
      next =>
        split at ha
        all_goals
          rcases List.mem_append.mp ha with ha1 | ha2
        · exact h a ha1
        · rcases List.mem_cons.mp ha2 with rfl | ha3
          · exact ⟨checkVaccineConflicts_nil r, trivial⟩
          · cases ha3
        · exact h a ha1
        · rcases List.mem_cons.mp ha2 with rfl | ha3
          · exact ⟨checkVaccineConflicts_nil r, trivial⟩
          · cases ha3

/-- Every appointment of the optimized schedule is sequentially
conflict-free. -/
theorem generateOptimizedSchedule_seqOK (recs : List VaccineRecommendation)
    (patient : Patient) (now : Int) :
    ∀ a ∈ generateOptimizedSchedule recs patient now, seqOK [] a.vaccines := by
  intro a ha
  unfold generateOptimizedSchedule at ha
  have ha' := (List.perm_insertionSort (fun a b : OptimizedSchedule => a.date ≤ b.date)
    _).mem_iff.mp ha
  exact foldl_seqOK patient now (List.insertionSort schedBefore recs)
    { schedule := [], processed := [], currentDate := now } (by simp) a ha'

/-- An empty conflict list rules out a live-vaccine pair and a hepatitis pair
between the new vaccine and any already-present one (the latter given that no
present vaccine shares the new vaccine's name). -/
theorem conflicts_empty_no_pair (z : VaccineRecommendation)
    (S : List VaccineRecommendation) (h : checkVaccineConflicts z S = [])
    (x : VaccineRecommendation) (hx : x ∈ S)
    (hname : ∀ y ∈ S, y.vaccine ≠ z.vaccine) :
    ¬(liveRec x = true ∧ liveRec z = true) ∧
    ¬(jsIncludes x.vaccine "Hepatitis" = true ∧
      jsIncludes z.vaccine "Hepatitis" = true) := by
  unfold checkVaccineConflicts at h
  constructor
  · rintro ⟨hlx, hlz⟩
    unfold liveRec at hlx hlz
    have hex : (S.any fun v => liveVaccines.any fun lv => jsIncludes v.vaccine lv) = true :=
      List.any_eq_true.mpr ⟨x, hx, hlx⟩
    rw [hlz, hex] at h
    simp at h
  · rintro ⟨hhx, hhz⟩
    have hB : (S.any fun v =>
        jsIncludes v.vaccine "Hepatitis" && jsIncludes z.vaccine "Hepatitis") = true :=
      List.any_eq_true.mpr ⟨x, hx, by rw [hhx, hhz]; rfl⟩
    have hC : (S.any fun v => v.vaccine == z.vaccine) = false := by
      cases hany : S.any fun v => v.vaccine == z.vaccine
      · rfl
      · obtain ⟨y, hy, hyeq⟩ := List.any_eq_true.mp hany
        exact absurd (by simpa using hyeq) (hname y hy)
    rw [hB, hC] at h
    simp at h

/-- No detected conflict pair between two recommendations: neither a
live-vaccine pair nor a pair of differently named hepatitis vaccines. -/
def noPairRel (v w : VaccineRecommendation) : Prop :=
  ¬(liveRec v = true ∧ liveRec w = true) ∧
  ¬(jsIncludes v.vaccine "Hepatitis" = true ∧ jsIncludes w.vaccine "Hepatitis" = true ∧
    v.vaccine ≠ w.vaccine)

/-- A sequentially conflict-free list with pairwise-distinct names contains
no detected conflict pair. -/
theorem seqOK_pairwise :
    ∀ (l seen : List VaccineRecommendation),
    seqOK seen l → (((seen ++ l).map (fun r => r.vaccine)).Nodup) →
    List.Pairwise noPairRel l ∧ ∀ y ∈ seen, ∀ z ∈ l, noPairRel y z := by
  intro l
  induction l with
  | nil => intro seen _ _; exact ⟨List.Pairwise.nil, by simp⟩
  | cons r rest ih =>
    intro seen hseq hnd
    obtain ⟨h1, h2⟩ := hseq
    have hnd' : (((seen ++ [r]) ++ rest).map (fun r => r.vaccine)).Nodup := by
      simpa [List.append_assoc] using hnd
    obtain ⟨hpw, hcross⟩ := ih (seen ++ [r]) h2 hnd'
    have hname : ∀ y ∈ seen, y.vaccine ≠ r.vaccine := by
      intro y hy heq
      rw [List.map_append, List.nodup_append] at hnd
      exact hnd.2.2 (List.mem_map.mpr ⟨y, hy, rfl⟩) (by simp [heq])
    refine ⟨List.Pairwise.cons (fun z hz => hcross r (by simp) z hz) hpw, ?_⟩
    intro y hy z hz
    rcases List.mem_cons.mp hz with rfl | hz
    · have hex := conflicts_empty_no_pair z seen h1 y hy hname
      exact ⟨hex.1, fun hcon => hex.2 ⟨hcon.1, hcon.2.1⟩⟩
    · exact hcross y (List.mem_append_left _ hy) z hz

/-- Within one appointment of the optimized schedule, vaccine names are
pairwise distinct. -/
theorem appt_names_nodup (recs : List VaccineRecommendation) (patient : Patient)
    (now : Int) (appt : OptimizedSchedule)
    (ha : appt ∈ generateOptimizedSchedule recs patient now) :
    ((appt.vaccines).map (fun r => r.vaccine)).Nodup := by
  have hg := generateOptimizedSchedule_names_nodup recs patient now
  obtain ⟨s, t, hst⟩ := List.append_of_mem ha
  rw [hst] at hg
  simp only [apptRecs, List.flatMap_append, List.flatMap_cons, List.map_append] at hg
  rw [List.nodup_append] at hg
  have h2 := hg.2.1
  rw [List.nodup_append] at h2
  exact h2.1

/-- C4 (amended): no single appointment of the optimized schedule contains a
detected conflict pair (live-vaccine pair or differing hepatitis vaccines),
and whenever conflicts are detected for a fresh recommendation the step
places it on a new appointment dated exactly 7 days after the candidate date,
tagged with the conflict list and the rescheduling note. -/
theorem conflict_detection_and_deferral (recs : List VaccineRecommendation)
    (patient : Patient) (now : Int) :
    (∀ appt ∈ generateOptimizedSchedule recs patient now,
        List.Pairwise noPairRel appt.vaccines)
    ∧ ∀ (st : SchedState) (rec : VaccineRecommendation),
        st.processed.contains rec.vaccine = false →
        checkVaccineConflicts rec
          (match st.schedule.find? (fun appt =>
              sameDay appt.date (max st.currentDate rec.dueDate)) with
           | some appt => appt.vaccines
           | none => []) ≠ [] →
        (scheduleStep patient now st rec).schedule =
          st.schedule ++
            [{ date := max st.currentDate rec.dueDate + 7
             , vaccines := [rec]
             , conflicts := checkVaccineConflicts rec
                 (match st.schedule.find? (fun appt =>
                     sameDay appt.date (max st.currentDate rec.dueDate)) with
                  | some appt => appt.vaccines
                  | none => [])
             , notes := generateSchedulingNotes rec patient now ++
                 " Rescheduled due to vaccine interactions." }] := by
  constructor
  · intro appt ha
    have hseq := generateOptimizedSchedule_seqOK recs patient now appt ha
    have hnd := appt_names_nodup recs patient now appt ha
    exact (seqOK_pairwise appt.vaccines [] hseq (by simpa using hnd)).1
  · intro st rec hfresh hconf
    have hne : (checkVaccineConflicts rec
        (match st.schedule.find? (fun appt =>
            sameDay appt.date (max st.currentDate rec.dueDate)) with
         | some appt => appt.vaccines
         | none => [])).isEmpty = false :=
      Bool.eq_false_iff.mpr (fun hemp => hconf (List.isEmpty_iff.mp hemp))
    unfold scheduleStep
    simp only [hfresh, Bool.false_eq_true, if_false, hne, Bool.and_false,
      Bool.not_false, if_true]

/-- A high-priority Yellow Fever recommendation due on day 0. -/
def yellowFeverDue0 : VaccineRecommendation :=
  { vaccine := "Yellow Fever", priority := .high, dueDate := 0
  , reason := "", riskScore := 80, interactions := [] }

/-- A high-priority Japanese Encephalitis recommendation due on day 0. -/
def japEncDue0 : VaccineRecommendation :=
  { vaccine := "Japanese Encephalitis", priority := .high, dueDate := 0
  , reason := "", riskScore := 80, interactions := [] }

/-- Counterexample for C4: two live-vaccine recommendations due the same day
are scheduled on two appointments only one day apart, because the optimizer
checks conflicts only against the appointment within 24 hours of the
candidate date — the pair is a detected conflict pair (their conflict list is
non-empty), yet the two appointments are less than 7 days apart. -/
theorem conflict_window_counterexample :
    generateOptimizedSchedule [yellowFeverDue0, japEncDue0] baselinePatient 0 =
      [ { date := 0, vaccines := [yellowFeverDue0], conflicts := []
        , notes := "High priority - schedule as soon as possible." }
      , { date := 1, vaccines := [japEncDue0], conflicts := []
        , notes := "High priority - schedule as soon as possible." } ]
    ∧ checkVaccineConflicts japEncDue0 [yellowFeverDue0] ≠ []
    ∧ ((1 : Int) - 0).natAbs < 7 := by
  refine ⟨by decide, by decide, by decide⟩

/-- Witness for C4 (amended): a concrete conflicting step is deferred exactly
7 days. -/
theorem conflict_detection_and_deferral_witness :
    (scheduleStep baselinePatient 0
        { schedule := [{ date := 0, vaccines := [yellowFeverDue0], conflicts := []
                       , notes := "n" }]
        , processed := ["Yellow Fever"], currentDate := 0 } japEncDue0).schedule =
      [ { date := 0, vaccines := [yellowFeverDue0], conflicts := [], notes := "n" }
      , { date := 7, vaccines := [japEncDue0]
        , conflicts := ["Multiple live vaccines scheduled - requires 4-week separation"]
        , notes := "High priority - schedule as soon as possible. Rescheduled due to vaccine interactions." } ] := by
  have h := (conflict_detection_and_deferral [] baselinePatient 0).2
    { schedule := [{ date := 0, vaccines := [yellowFeverDue0], conflicts := []
                   , notes := "n" }]
    , processed := ["Yellow Fever"], currentDate := 0 } japEncDue0
    (by decide) (by decide)
  exact h.trans (by decide)

/-! ### C9: reminder planner contract -/

/-- Every reminder emitted for one recommendation has a computed status:
`sent` exactly when its fire date is strictly before now, never `failed`. -/
theorem remindersForRec_status (rec : VaccineRecommendation) (i : Nat)
    (prefs : ReminderPreferences) (now : Int) :
    ∀ rem ∈ remindersForRec rec i prefs now,
      rem.status ≠ .failed ∧ (rem.status = .sent ↔ rem.reminderDate < now) := by
  intro rem hrem
  unfold remindersForRec at hrem
  rcases List.mem_append.mp hrem with hbase | hfu
  · obtain ⟨t, ht, rfl⟩ := List.mem_map.mp hbase
    by_cases hlt : rec.dueDate - prefs.advanceDays < now
    · simp [hlt]
    · simp [hlt]
  · split at hfu
    · obtain ⟨t, ht, rfl⟩ := List.mem_map.mp hfu
      by_cases hlt : rec.dueDate - 1 < now
      · simp [hlt]
      · simp [hlt]
    · cases hfu

/-- Number of reminders emitted for one recommendation. -/
theorem remindersForRec_length (rec : VaccineRecommendation) (i : Nat)
    (prefs : ReminderPreferences) (now : Int) :
    (remindersForRec rec i prefs now).length =
      (reminderTypes prefs).length * (if rec.priority == .high then 2 else 1) := by
  unfold remindersForRec
  cases h : rec.priority == RecPriority.high <;>
    simp [h, List.length_append, List.length_map, Nat.mul_comm, Nat.mul_two]

/-- Total number of reminders over a recommendation list. -/
theorem remindersAux_length (prefs : ReminderPreferences) (now : Int) :
    ∀ (l : List VaccineRecommendation) (i : Nat),
    (remindersAux prefs now i l).length =
      (reminderTypes prefs).length *
        (l.length + (l.filter (fun r => r.priority == .high)).length) := by
  intro l
  induction l with
  | nil => intro i; simp [remindersAux]
  | cons r rest ih =>
    intro i
    rw [remindersAux]
    rw [List.length_append, remindersForRec_length, ih (i + 1)]
    cases h : r.priority == RecPriority.high <;>
      simp [h, List.filter_cons] <;> ring

/-- Every reminder in the accumulated list comes from some recommendation of
the input. -/
theorem remindersAux_mem (prefs : ReminderPreferences) (now : Int) :
    ∀ (l : List VaccineRecommendation) (i : Nat) (rem : ScheduledReminder),
    rem ∈ remindersAux prefs now i l →
    ∃ rec ∈ l, ∃ j, rem ∈ remindersForRec rec j prefs now := by
  intro l
  induction l with
  | nil => intro i rem h; cases h
  | cons r rest ih =>
    intro i rem h
    rw [remindersAux] at h
    rcases List.mem_append.mp h with h1 | h2
    · exact ⟨r, List.mem_cons_self _ _, i, h1⟩
    · obtain ⟨rec, hrec, j, hj⟩ := ih (i + 1) rem h2
      exact ⟨rec, List.mem_cons_of_mem _ hrec, j, hj⟩

/-- For each recommendation of the input and each enabled channel, the
accumulated list holds the base reminder, and for high priority also the
final reminder the day before. -/
theorem remindersAux_presence (prefs : ReminderPreferences) (now : Int) :
    ∀ (l : List VaccineRecommendation) (i : Nat) (rec : VaccineRecommendation),
    rec ∈ l → ∀ t ∈ reminderTypes prefs,
    ((∃ rem ∈ remindersAux prefs now i l,
        rem.vaccine = rec.vaccine ∧ rem.type = t ∧
        rem.appointmentDate = rec.dueDate ∧
        rem.reminderDate = rec.dueDate - prefs.advanceDays) ∧
     (rec.priority = .high →
        ∃ rem ∈ remindersAux prefs now i l,
          rem.vaccine = rec.vaccine ++ " (Final Reminder)" ∧ rem.type = t ∧
          rem.appointmentDate = rec.dueDate ∧
          rem.reminderDate = rec.dueDate - 1)) := by
  intro l
  induction l with
  | nil => intro i rec h; cases h
  | cons r rest ih =>
    intro i rec hrec t ht
    rcases List.mem_cons.mp hrec with rfl | hrec
    · constructor
      · refine ⟨{ id := rec.vaccine ++ "-" ++ channelName t ++ "-" ++ toString i
                , vaccine := rec.vaccine
                , appointmentDate := rec.dueDate
                , reminderDate := rec.dueDate - prefs.advanceDays
                , type := t
                , status := if rec.dueDate - prefs.advanceDays < now then .sent else .scheduled
                , priority := rec.priority }, ?_, rfl, rfl, rfl, rfl⟩
        rw [remindersAux]
        apply List.mem_append_left
        unfold remindersForRec
        apply List.mem_append_left
        exact List.mem_map.mpr ⟨t, ht, rfl⟩
      · intro hhigh
        refine ⟨{ id := rec.vaccine ++ "-" ++ channelName t ++ "-followup-" ++ toString i
                , vaccine := rec.vaccine ++ " (Final Reminder)"
                , appointmentDate := rec.dueDate
                , reminderDate := rec.dueDate - 1
                , type := t
                , status := if rec.dueDate - 1 < now then .sent else .scheduled
                , priority := rec.priority }, ?_, rfl, rfl, rfl, rfl⟩
        rw [remindersAux]
        apply List.mem_append_left
        unfold remindersForRec
        apply List.mem_append_right
        rw [if_pos (by simp [hhigh])]
        exact List.mem_map.mpr ⟨t, ht, rfl⟩
    · obtain ⟨hbase, hfinal⟩ := ih (i + 1) rec hrec t ht
      constructor
      · obtain ⟨rem, hmem, hprops⟩ := hbase
        exact ⟨rem, by rw [remindersAux]; exact List.mem_append_right _ hmem, hprops⟩
      · intro hhigh
        obtain ⟨rem, hmem, hprops⟩ := hfinal hhigh
        exact ⟨rem, by rw [remindersAux]; exact List.mem_append_right _ hmem, hprops⟩

/-- C9: the reminder planner emits, per enabled channel, a base reminder at
`dueDate − advanceDays` and for high-priority recommendations a final
reminder at `dueDate − 1`; every emitted reminder's status is `sent` iff its
fire date is strictly before now and never `failed`; and the output is sorted
ascending by fire date. -/
theorem reminder_planner_contract (recs : List VaccineRecommendation)
    (prefs : ReminderPreferences) (now : Int) :
    (∀ rem ∈ generateReminders recs prefs now,
        rem.status ≠ .failed ∧ (rem.status = .sent ↔ rem.reminderDate < now))
    ∧ List.Sorted (fun a b => a.reminderDate ≤ b.reminderDate)
        (generateReminders recs prefs now)
    ∧ (generateReminders recs prefs now).length =
        (reminderTypes prefs).length *
          (recs.length + (recs.filter (fun r => r.priority == .high)).length)
    ∧ ∀ rec ∈ recs, ∀ t ∈ reminderTypes prefs,
        ((∃ rem ∈ generateReminders recs prefs now,
            rem.vaccine = rec.vaccine ∧ rem.type = t ∧
            rem.appointmentDate = rec.dueDate ∧
            rem.reminderDate = rec.dueDate - prefs.advanceDays) ∧
         (rec.priority = .high →
            ∃ rem ∈ generateReminders recs prefs now,
              rem.vaccine = rec.vaccine ++ " (Final Reminder)" ∧ rem.type = t ∧
              rem.appointmentDate = rec.dueDate ∧
              rem.reminderDate = rec.dueDate - 1)) := by
  have hperm := List.perm_insertionSort
    (fun a b : ScheduledReminder => a.reminderDate ≤ b.reminderDate)
    (remindersAux prefs now 0 recs)
  refine ⟨?_, ?_, ?_, ?_⟩
  · intro rem hrem
    have hrem' : rem ∈ remindersAux prefs now 0 recs := hperm.mem_iff.mp hrem
    obtain ⟨rec, -, j, hj⟩ := remindersAux_mem prefs now recs 0 rem hrem'
    exact remindersForRec_status rec j prefs now rem hj
  · haveI : IsTotal ScheduledReminder (fun a b => a.reminderDate ≤ b.reminderDate) :=
      ⟨fun a b => le_total _ _⟩
    haveI : IsTrans ScheduledReminder (fun a b => a.reminderDate ≤ b.reminderDate) :=
      ⟨fun _ _ _ hab hbc => le_trans hab hbc⟩
    exact List.sorted_insertionSort _ _
  · rw [generateReminders, hperm.length_eq, remindersAux_length]
  · intro rec hrec t ht
    obtain ⟨hbase, hfinal⟩ := remindersAux_presence prefs now recs 0 rec hrec t ht
    constructor
    · obtain ⟨rem, hmem, hprops⟩ := hbase
      exact ⟨rem, hperm.mem_iff.mpr hmem, hprops⟩
    · intro hhigh
      obtain ⟨rem, hmem, hprops⟩ := hfinal hhigh
      exact ⟨rem, hperm.mem_iff.mpr hmem, hprops⟩

/-- Reminder preferences used by the C9 witness: email configured, sms
enabled but unconfigured, push enabled. -/
def witnessPrefs : ReminderPreferences :=
  { email := true, sms := true, push := true, advanceDays := 7
  , preferredTime := "09:00", emailAddress := "a@b.example", phoneNumber := "" }

/-- Witness for C9 at a concrete input: one high-priority recommendation and
two effectively enabled channels yield four reminders. -/
theorem reminder_planner_contract_witness :
    (generateReminders [yellowFeverDue0] witnessPrefs 10).length = 4 :=
  ((reminder_planner_contract [yellowFeverDue0] witnessPrefs 10).2.2.1).trans (by decide)

/-- Witness for C3 (amended): the `"Birth+"` rule is satisfied at a concrete
age through the amended characterization. -/
theorem ageEligibility_amended_witness : ageGroupSatisfied "Birth+" 0 = true :=
  (ageEligibility_amended.1 "Birth+" 0).mpr (Or.inl rfl)

/-- Witness for C6: a concrete single-recommendation run yields exactly one
appointment dated on the scheduling day, at or after the due date. -/
theorem single_recommendation_schedule_witness :
    generateOptimizedSchedule [yellowFeverDue0] baselinePatient 5 =
      [{ date := 5, vaccines := [yellowFeverDue0], conflicts := []
       , notes := "High priority - schedule as soon as possible." }] :=
  ((single_recommendation_schedule yellowFeverDue0 baselinePatient 5).1).trans (by decide)
